import Mathlib

/-!
# Verification of the query-history filter-and-aggregate pipeline

Shallow embedding of the analytics pipeline in `Hello.py`: a flat record
set is filtered by a selection tuple (date range, team, app, page) and
aggregated into summary counts, per-day viewer sets, daily quantile
statistics of query durations, and a top-100 longest-queries table.

Modelling conventions:
* a pandas DataFrame of records is a `List Record`, rows in table order;
* dates are `Nat` day numbers (dates are only compared and grouped);
* nullable string columns (`team_name`, `app_name`, `page_name`) are
  `Option String`, `none` standing for pandas null/NaN;
* `query_time_sec` is `ℚ` (an exact model of the finite duration values);
* a Python `set` of viewer names is a `Finset String`;
* `pandas.Series.quantile` (linear interpolation, its default) is
  `quantileLinear`;
* `sort_values(ascending=False)` computes a stable ascending argsort and
  reverses it (pandas `nargsort` semantics), embedded as
  `(List.insertionSort le l).reverse` — `insertionSort` is stable;
* `groupby` sorts group keys ascending and drops rows whose key is null;
* the Streamlit `st.stop()` on an empty filtered subset is modelled by the
  script returning `none` for everything downstream of the stop.
-/

/-- One row of the query-history dataset (spec §3).  `start_date` is the
calendar date derived from `start_time` by the loader; the pipeline only
reads `start_date`.  `team_name`, `app_name`, `page_name` come from the
query tag and are nullable. -/
structure Record where
  start_time : Nat
  start_date : Nat
  viewer_name : String
  team_name : Option String
  app_name : Option String
  page_name : Option String
  database_name : String
  schema_name : String
  query_text : String
  query_type : String
  query_id : String
  query_time_sec : ℚ
deriving DecidableEq, Repr

/-- The filter-selection tuple supplied by the widget layer: inclusive
date range plus team/app/page values, where the string literal All is the
sentinel meaning no filter at that level. -/
structure Selection where
  startDate : Nat
  endDate : Nat
  team : String
  app : String
  page : String
deriving DecidableEq, Repr

/-- The conjunction of the active filter predicates of a selection:
date inside the inclusive range, and equality at each hierarchy level
unless that level is the sentinel All.  (pandas equality against a null
cell is false, hence `some`.) -/
def activePred (sel : Selection) (r : Record) : Bool :=
  decide (sel.startDate ≤ r.start_date ∧ r.start_date ≤ sel.endDate) &&
    (decide (sel.team = "All") || decide (r.team_name = some sel.team)) &&
    (decide (sel.app = "All") || decide (r.app_name = some sel.app)) &&
    (decide (sel.page = "All") || decide (r.page_name = some sel.page))

/-- The filter stage, lines 93–113 of `Hello.py`: the date-range filter
(`between`, inclusive both ends), then the team, app and page equality
filters, each guarded only by its own value being the sentinel All and
each consuming the previous stage's output. -/
def filterStage (records : List Record) (sel : Selection) : List Record :=
  let d0 := records.filter fun r =>
    decide (sel.startDate ≤ r.start_date ∧ r.start_date ≤ sel.endDate)
  let d1 := if sel.team = "All" then d0
    else d0.filter fun r => decide (r.team_name = some sel.team)
  let d2 := if sel.app = "All" then d1
    else d1.filter fun r => decide (r.app_name = some sel.app)
  if sel.page = "All" then d2
  else d2.filter fun r => decide (r.page_name = some sel.page)

/-- `data.team_name.dropna().nunique()` (line 71): the number of distinct
non-null team names. -/
def teamCount (rs : List Record) : Nat :=
  (rs.filterMap (·.team_name)).dedup.length

/-- The non-null (team, app) pairs of the rows, in row order:
`data[["team_name", "app_name"]].dropna()` keeps exactly the rows where
both cells are non-null. -/
def appPairs (rs : List Record) : List (String × String) :=
  rs.filterMap fun r => match r.team_name, r.app_name with
    | some t, some a => some (t, a)
    | _, _ => none

/-- `len(data[["team_name", "app_name"]].dropna().drop_duplicates())`
(lines 72–75): the number of distinct non-null (team, app) pairs. -/
def appCount (rs : List Record) : Nat := (appPairs rs).dedup.length

/-- The non-null (team, app, page) triple contributed by a row, if all
three cells are non-null. -/
def tripleOf (r : Record) : Option (String × String × String) :=
  match r.team_name, r.app_name, r.page_name with
  | some t, some a, some p => some (t, a, p)
  | _, _, _ => none

/-- The non-null (team, app, page) triples of the rows, in row order. -/
def pageTriples (rs : List Record) : List (String × String × String) :=
  rs.filterMap tripleOf

/-- `len(data[["team_name", "app_name", "page_name"]].dropna().drop_duplicates())`
(lines 76–79): the number of distinct non-null (team, app, page) triples. -/
def pageCount (rs : List Record) : Nat := (pageTriples rs).dedup.length

/-- The `summary` function of `Hello.py` (lines 68–79): the three metric
values it renders, as a triple (teams, apps, pages). -/
def summary (rs : List Record) : Nat × Nat × Nat :=
  (teamCount rs, appCount rs, pageCount rs)

/-- pandas `Series.unique()`: the distinct values of a list in order of
first appearance, collected left to right. -/
def uniqueFirst (l : List String) : List String :=
  l.foldl (fun acc x => if x ∈ acc then acc else acc ++ [x]) []

/-- The date-range filter alone (line 93 of `Hello.py`), inclusive at both
ends. -/
def filterByDate (records : List Record) (d1 d2 : Nat) : List Record :=
  records.filter fun r => decide (d1 ≤ r.start_date ∧ r.start_date ≤ d2)

/-- The option list of the Team select box (lines 95–97): the sentinel All
followed by `data.team_name.dropna().unique()`, where `data` is, at that
point of the script, the date-filtered table produced on line 93. -/
def teamOptions (records : List Record) (d1 d2 : Nat) : List String :=
  "All" :: uniqueFirst ((filterByDate records d1 d2).filterMap (·.team_name))

/-- The distinct `start_date` keys of a record list, ascending — the key
order `groupby("start_date")` produces (pandas sorts keys). -/
def ascDates (rs : List Record) : List Nat :=
  List.insertionSort (fun a b => a ≤ b) (rs.map (·.start_date)).dedup

/-- The rows of one `groupby("start_date")` group, in original row order. -/
def groupOn (rs : List Record) (d : Nat) : List Record :=
  rs.filter fun r => decide (r.start_date = d)

/-- The Python `set` of viewer names of one date group
(`.viewer_name.apply(set)`). -/
def viewersOn (rs : List Record) (d : Nat) : Finset String :=
  ((groupOn rs d).map (·.viewer_name)).toFinset

/-- The coarse viewer table (lines 124–131): one row per distinct
`start_date`, holding the viewer set and its cardinality, sorted by
`start_date` descending.  `sort_values(ascending=False)` reverses the
ascending group-key order; the keys are distinct so no tie arises. -/
def viewersData (rs : List Record) : List (Nat × Finset String × Nat) :=
  (ascDates rs).reverse.map fun d => (d, viewersOn rs d, (viewersOn rs d).card)

/-- The composite grouping key `(start_date, app_name, page_name)` of a
row, or `none` when `app_name` or `page_name` is null — pandas `groupby`
drops such rows from every group (default `dropna=True`). -/
def fineKeyOf (r : Record) : Option (Nat × String × String) :=
  match r.app_name, r.page_name with
  | some a, some p => some (r.start_date, a, p)
  | _, _ => none

/-- The distinct composite keys of the fine viewer aggregation. -/
def fineKeys (rs : List Record) : Finset (Nat × String × String) :=
  (rs.filterMap fineKeyOf).toFinset

/-- The rows of one fine group: rows whose composite key equals `k`
(a null-keyed row matches no group). -/
def fineGroup (rs : List Record) (k : Nat × String × String) : List Record :=
  rs.filter fun r => decide (fineKeyOf r = some k)

/-- The viewer set of one fine group. -/
def fineViewersOn (rs : List Record) (k : Nat × String × String) : Finset String :=
  ((fineGroup rs k).map (·.viewer_name)).toFinset

/-- The fine viewer table (lines 135–142), grouped by
`(start_date, app_name, page_name)`.  Row order of the rendered table is
not modelled (no claim concerns it), so the table is its set of rows. -/
def viewersDataFine (rs : List Record) :
    Finset ((Nat × String × String) × Finset String × Nat) :=
  (fineKeys rs).image fun k => (k, fineViewersOn rs k, (fineViewersOn rs k).card)

/-- `pandas.Series.quantile(q)` with its default linear interpolation:
with the values sorted ascending as `x_0 ≤ … ≤ x_(n-1)` and
`h = (n-1)·q`, the result is `x_⌊h⌋ + (h - ⌊h⌋)·(x_(⌊h⌋+1) - x_⌊h⌋)`
(for `h` integral the second term vanishes).  Empty input is unreachable
in the pipeline (groups are non-empty); 0 is returned there. -/
def quantileLinear (xs : List ℚ) (q : ℚ) : ℚ :=
  let s := List.insertionSort (fun a b => a ≤ b) xs
  if s.length = 0 then 0
  else
    let h : ℚ := ((s.length : ℚ) - 1) * q
    let i : ℤ := Rat.floor h
    let lo := s.getD i.toNat 0
    let hi := s.getD (i.toNat + 1) lo
    lo + (h - (i : ℚ)) * (hi - lo)

/-- The `query_time_sec` values of one date group, in row order. -/
def groupTimes (rs : List Record) (d : Nat) : List ℚ :=
  (groupOn rs d).map (·.query_time_sec)

/-- One row of the daily quantile table: the date and the six statistics
min, p25, median, p90, p95, max — the quantiles of the group's
`query_time_sec` values at fractions 0, 0.25, 0.5, 0.9, 0.95, 1. -/
def quartileRow (rs : List Record) (d : Nat) : Nat × ℚ × ℚ × ℚ × ℚ × ℚ × ℚ :=
  (d, quantileLinear (groupTimes rs d) 0,
      quantileLinear (groupTimes rs d) (1/4),
      quantileLinear (groupTimes rs d) (1/2),
      quantileLinear (groupTimes rs d) (9/10),
      quantileLinear (groupTimes rs d) (19/20),
      quantileLinear (groupTimes rs d) 1)

/-- The `quartiles` table of `Hello.py` (lines 157–164):
`groupby("start_date")["query_time_sec"].quantile([0, .25, .5, .9, .95, 1]).unstack()`,
one row per distinct date, dates ascending. -/
def quartiles (rs : List Record) : List (Nat × ℚ × ℚ × ℚ × ℚ × ℚ × ℚ) :=
  (ascDates rs).map (quartileRow rs)

/-- One row of the 100-longest-queries table: the projection of a record
to the six displayed columns. -/
structure TopRow where
  start_date : Nat
  team_name : Option String
  app_name : Option String
  page_name : Option String
  query_text : String
  query_time_sec : ℚ
deriving DecidableEq, Repr

/-- Column projection of the longest-queries table (lines 193–202). -/
def projectTop (r : Record) : TopRow :=
  ⟨r.start_date, r.team_name, r.app_name, r.page_name, r.query_text,
    r.query_time_sec⟩

/-- Comparison of records by query duration, the sort key of
`sort_values(by="query_time_sec")`. -/
def byTime (a b : Record) : Prop := a.query_time_sec ≤ b.query_time_sec

instance : DecidableRel byTime := fun a b =>
  inferInstanceAs (Decidable (a.query_time_sec ≤ b.query_time_sec))

instance : IsTotal Record byTime := ⟨fun a b => le_total a.query_time_sec b.query_time_sec⟩

instance : IsTrans Record byTime := ⟨fun _ _ _ => le_trans⟩

/-- `data.sort_values(by="query_time_sec", ascending=False)`: pandas
nargsort computes a stable ascending argsort and reverses the whole
indexer for a descending sort, so rows with equal key come out in
reversed original order. -/
def sortDescByTime (rs : List Record) : List Record :=
  (List.insertionSort byTime rs).reverse

/-- The 100-longest-queries table (lines 191–204): sort descending by
`query_time_sec`, keep the first 100 rows, project to the six displayed
columns.  `reset_index(drop=True)` makes the row index the list
position. -/
def longestQueries (rs : List Record) : List TopRow :=
  ((sortDescByTime rs).take 100).map projectTop

/-- Everything the script renders strictly after the `st.stop()` guard of
line 119: the two viewer tables, the daily quantile table and the
longest-queries table, all computed from the filtered subset. -/
structure ExploreViews where
  viewers : List (Nat × Finset String × Nat)
  viewersFine : Finset ((Nat × String × String) × Finset String × Nat)
  dailyQuartiles : List (Nat × ℚ × ℚ × ℚ × ℚ × ℚ × ℚ)
  longest : List TopRow

/-- One full run of the script body: the summary metrics (rendered before
the filter widgets) and, unless the filtered subset is empty, the explore
views.  `explore = none` is the "No data to display" early stop. -/
structure ScriptOutput where
  summaryMetrics : Nat × Nat × Nat
  explore : Option ExploreViews

/-- The script of `Hello.py`, lines 55–205, as a function of the loaded
records and the widget selection: `summary(data)` is applied on line 82
to the full dataset, before any filter; the filter chain then runs and,
if its result is empty, `st.stop()` ends the script with only the warning
shown; otherwise the four explore views are computed from the filtered
subset. -/
def runScript (records : List Record) (sel : Selection) : ScriptOutput :=
  let metrics := summary records
  let data := filterStage records sel
  if data = [] then ⟨metrics, none⟩
  else ⟨metrics,
    some ⟨viewersData data, viewersDataFine data, quartiles data,
      longestQueries data⟩⟩

/-- `Rat.floor` (the executable floor used in `quantileLinear`) agrees
with the order-theoretic floor `⌊·⌋`. -/
theorem ratFloor_eq_floor (q : ℚ) : Rat.floor q = ⌊q⌋ := by
  rw [Rat.floor_def', Rat.floor_def]

/-- The sequential filter chain collapses to one pass of the conjunction
of the active predicates. -/
theorem filterStage_eq_filter (records : List Record) (sel : Selection) :
    filterStage records sel = records.filter (activePred sel) := by
  unfold filterStage activePred
  by_cases ht : sel.team = "All" <;> by_cases ha : sel.app = "All" <;>
    by_cases hp : sel.page = "All" <;>
      simp [ht, ha, hp, List.filter_filter, Bool.and_assoc, Bool.and_comm,
        Bool.and_left_comm]

/-- The same selection with the app filter reset to the sentinel All. -/
def withAppAll (sel : Selection) : Selection :=
  ⟨sel.startDate, sel.endDate, sel.team, "All", sel.page⟩

/-- The same selection with the page filter reset to the sentinel All. -/
def withPageAll (sel : Selection) : Selection :=
  ⟨sel.startDate, sel.endDate, sel.team, sel.app, "All"⟩

/-- Record builder for the concrete example datasets: day number, viewer,
team/app/page tags, query text and duration; the columns the pipeline
never reads are fixed. -/
def mkRec (d : Nat) (v : String) (t a p : Option String) (txt : String)
    (q : ℚ) : Record :=
  ⟨d, d, v, t, a, p, "db", "sc", txt, "SELECT", "qid", q⟩

/-- C7: for every input record set and selection tuple, the filter stage
applies the date-range, team, app and page predicates in strict sequence,
each active unless its own value is the sentinel All, and the result is
exactly the records satisfying all active predicates in their original
relative order — i.e. a single order-preserving filter by the conjunction
of the active predicates. -/
theorem C7_filter_chain_is_conjunction (records : List Record)
    (sel : Selection) :
    filterStage records sel = records.filter (activePred sel) :=
  filterStage_eq_filter records sel

/-- Two-record dataset for the C4 selection-inconsistency experiment:
two teams, each with its own app and page, on day 1. -/
def exC4r1 : Record := mkRec 1 "u1" (some "T1") (some "A1") (some "P1") "q1" 1

/-- Second record of the C4 dataset, a different team and app. -/
def exC4r2 : Record := mkRec 1 "u2" (some "T2") (some "A2") (some "P2") "q2" 2

/-- The C4 dataset. -/
def exC4 : List Record := [exC4r1, exC4r2]

/-- An inconsistent selection: the app filter is set while the team
filter is the sentinel All. -/
def selC4 : Selection := ⟨0, 9, "All", "A1", "All"⟩

/-- An inconsistent selection: the page filter is set while the app
filter is the sentinel All. -/
def selC4pg : Selection := ⟨0, 9, "All", "All", "P1"⟩

/-- C4 counterexample: with team = All and app = A1, the filter stage
does NOT ignore the app filter — it applies it, so the result differs
from the one obtained with app reset to All. -/
theorem C4_counterexample :
    filterStage exC4 selC4 = [exC4r1] ∧
    filterStage exC4 (withAppAll selC4) = [exC4r1, exC4r2] ∧
    filterStage exC4 selC4 ≠ filterStage exC4 (withAppAll selC4) := by
  refine ⟨by decide, by decide, by decide⟩

/-- C4 (amended): a lower-level filter whose parent is the sentinel All
is still applied, not ignored and not an error: the result equals the
subset obtained with that filter reset to All, further filtered by the
corresponding equality predicate. -/
theorem C4_lower_filter_applied (records : List Record) (sel : Selection) :
    (sel.team = "All" → sel.app ≠ "All" →
      filterStage records sel =
        (filterStage records (withAppAll sel)).filter
          fun r => decide (r.app_name = some sel.app)) ∧
    (sel.app = "All" → sel.page ≠ "All" →
      filterStage records sel =
        (filterStage records (withPageAll sel)).filter
          fun r => decide (r.page_name = some sel.page)) := by
  constructor
  · intro ht ha
    rw [filterStage_eq_filter, filterStage_eq_filter, List.filter_filter]
    congr 1
    funext r
    simp [activePred, withAppAll, ht, ha, Bool.and_assoc, Bool.and_comm,
      Bool.and_left_comm]
  · intro ha hp
    rw [filterStage_eq_filter, filterStage_eq_filter, List.filter_filter]
    congr 1
    funext r
    simp [activePred, withPageAll, ha, hp, Bool.and_assoc, Bool.and_comm,
      Bool.and_left_comm]

/-- C4 witness: the amended statement applied to the concrete
inconsistent selections. -/
theorem C4_lower_filter_applied_witness :
    (filterStage exC4 selC4 =
      (filterStage exC4 (withAppAll selC4)).filter
        fun r => decide (r.app_name = some selC4.app)) ∧
    (filterStage exC4 selC4pg =
      (filterStage exC4 (withPageAll selC4pg)).filter
        fun r => decide (r.page_name = some selC4pg.page)) :=
  ⟨(C4_lower_filter_applied exC4 selC4).1 (by decide) (by decide),
   (C4_lower_filter_applied exC4 selC4pg).2 (by decide) (by decide)⟩

/-- The summary metrics a script run renders are those of the full
dataset: the `summary(data)` call precedes every filter widget. -/
theorem runScript_summaryMetrics (records : List Record) (sel : Selection) :
    (runScript records sel).summaryMetrics = summary records := by
  unfold runScript
  dsimp only
  split <;> rfl

/-- C3: when the filter stage yields an empty subset, the script signals
the distinct no-data state (`explore = none`) and none of the downstream
aggregations — viewer views, quantiles, top-N — is computed, not even as
an empty table. -/
theorem C3_empty_subset_stops (records : List Record) (sel : Selection)
    (h : filterStage records sel = []) :
    (runScript records sel).explore = none := by
  unfold runScript
  simp [h]

/-- Dataset and selection for the C3 witness: one record, and a team
filter matching no record. -/
def exC3 : List Record := [mkRec 1 "u1" (some "T1") (some "A1") (some "P1") "q1" 1]

/-- A selection whose team filter eliminates every record of `exC3`. -/
def selC3 : Selection := ⟨0, 9, "T2", "All", "All"⟩

/-- C3 witness: on the concrete dataset the filtered subset is empty and
the script run carries no explore views. -/
theorem C3_empty_subset_stops_witness :
    (runScript exC3 selC3).explore = none :=
  C3_empty_subset_stops exC3 selC3 (by decide)

/-- Two-day, two-team dataset for the C6 counterexample. -/
def exC6 : List Record :=
  [mkRec 1 "u1" (some "T1") (some "A1") (some "P1") "q1" 1,
   mkRec 2 "u2" (some "T2") (some "A2") (some "P2") "q2" 2]

/-- A selection narrowing `exC6` to day 1 only. -/
def selC6 : Selection := ⟨1, 1, "All", "All", "All"⟩

/-- C6 counterexample: the summary metrics of a script run are NOT
computed from the filtered subset — on `exC6` restricted to day 1 the
filtered subset contains one team, yet the rendered summary still counts
two. -/
theorem C6_counterexample :
    filterStage exC6 selC6 = [mkRec 1 "u1" (some "T1") (some "A1") (some "P1") "q1" 1] ∧
    summary (filterStage exC6 selC6) = (1, 1, 1) ∧
    (runScript exC6 selC6).summaryMetrics = (2, 2, 2) ∧
    (runScript exC6 selC6).summaryMetrics ≠ summary (filterStage exC6 selC6) := by
  refine ⟨by decide, by decide, ?_, ?_⟩
  · rw [runScript_summaryMetrics]; decide
  · rw [runScript_summaryMetrics]; decide

/-- C6 (amended): the three summary counts are computed from the full
record set, before the filter stage runs; they are the counts of the full
dataset and are independent of the selection tuple. -/
theorem C6_summary_from_full_dataset (records : List Record)
    (sel sel' : Selection) :
    (runScript records sel).summaryMetrics = summary records ∧
    (runScript records sel).summaryMetrics =
      (runScript records sel').summaryMetrics := by
  refine ⟨runScript_summaryMetrics records sel, ?_⟩
  rw [runScript_summaryMetrics, runScript_summaryMetrics]

/-- Membership in the first-occurrence deduplication fold. -/
theorem mem_foldl_uniqueFirst (l acc : List String) (x : String) :
    (x ∈ l.foldl (fun acc y => if y ∈ acc then acc else acc ++ [y]) acc) ↔
      x ∈ acc ∨ x ∈ l := by
  induction l generalizing acc with
  | nil => simp
  | cons y ys ih =>
    simp only [List.foldl_cons]
    rw [ih]
    by_cases h : y ∈ acc
    · simp only [if_pos h, List.mem_cons]
      constructor
      · tauto
      · rintro (hx | rfl | hx) <;> tauto
    · simp only [if_neg h, List.mem_append, List.mem_singleton, List.mem_cons]
      tauto

/-- `uniqueFirst` keeps exactly the values of its input. -/
theorem mem_uniqueFirst (l : List String) (x : String) :
    x ∈ uniqueFirst l ↔ x ∈ l := by
  unfold uniqueFirst
  rw [mem_foldl_uniqueFirst]
  simp

/-- Two-day, two-team dataset for the C9 counterexample. -/
def exC9 : List Record :=
  [mkRec 1 "u1" (some "T1") (some "A1") (some "P1") "q1" 1,
   mkRec 2 "u2" (some "T2") (some "A2") (some "P2") "q2" 2]

/-- C9 counterexample: with the date range narrowed to day 1, the Team
select box offers only the teams of the date-filtered subset — T2, a
team of the full dataset, is missing. -/
theorem C9_counterexample :
    teamOptions exC9 1 1 = ["All", "T1"] ∧
    "All" :: uniqueFirst (exC9.filterMap (·.team_name)) = ["All", "T1", "T2"] ∧
    teamOptions exC9 1 1 ≠ "All" :: uniqueFirst (exC9.filterMap (·.team_name)) := by
  refine ⟨by decide, by decide, by decide⟩

/-- C9 (amended): the selectable team values are the sentinel All plus
the distinct non-null `team_name` values of the date-filtered subset, so
they do depend on the chosen date range. -/
theorem C9_team_options_from_date_filtered (records : List Record)
    (d1 d2 : Nat) (t : String) :
    t ∈ teamOptions records d1 d2 ↔
      t = "All" ∨ ∃ r ∈ records,
        (d1 ≤ r.start_date ∧ r.start_date ≤ d2) ∧ r.team_name = some t := by
  unfold teamOptions filterByDate
  rw [List.mem_cons, mem_uniqueFirst]
  simp only [List.mem_filterMap, List.mem_filter, decide_eq_true_eq]
  tauto

/-- C5: the three summary counts are the numbers of distinct non-null
team names, distinct fully-non-null (team, app) pairs, and distinct
fully-non-null (team, app, page) triples; a row with non-null team and
app but null page contributes its pair but no triple. -/
theorem C5_summary_distinct_counts (rs : List Record) :
    teamCount rs = (rs.filterMap (·.team_name)).toFinset.card ∧
    appCount rs = (appPairs rs).toFinset.card ∧
    pageCount rs = (pageTriples rs).toFinset.card ∧
    ∀ r ∈ rs, ∀ t a, r.team_name = some t → r.app_name = some a →
      r.page_name = none →
        (t, a) ∈ (appPairs rs).toFinset ∧ tripleOf r = none := by
  refine ⟨(List.card_toFinset _).symm, (List.card_toFinset _).symm,
    (List.card_toFinset _).symm, ?_⟩
  intro r hr t a ht ha hp
  constructor
  · rw [List.mem_toFinset]
    exact List.mem_filterMap.mpr ⟨r, hr, by rw [ht, ha]⟩
  · unfold tripleOf
    rw [ht, ha, hp]

/-- First record of the C5 dataset: all three tags present. -/
def exC5r1 : Record := mkRec 1 "u1" (some "T1") (some "A1") (some "P1") "q1" 1

/-- Second record of the C5 dataset: team and app tagged, page null. -/
def exC5r2 : Record := mkRec 1 "u2" (some "T1") (some "A2") none "q2" 2

/-- The C5 dataset. -/
def exC5 : List Record := [exC5r1, exC5r2]

/-- C5 witness: the distinct-count characterisation instantiated on the
concrete dataset, whose null-page row contributes its (team, app) pair
but no triple. -/
theorem C5_summary_distinct_counts_witness :
    teamCount exC5 = (exC5.filterMap (·.team_name)).toFinset.card ∧
    ("T1", "A2") ∈ (appPairs exC5).toFinset ∧ tripleOf exC5r2 = none :=
  ⟨(C5_summary_distinct_counts exC5).1,
   (C5_summary_distinct_counts exC5).2.2.2 exC5r2 (by decide) "T1" "A2"
     rfl rfl rfl⟩

/-- C10: a record whose `app_name` or `page_name` is null has no
composite grouping key, belongs to no group of the fine viewer view, yet
still contributes its viewer to the coarse per-date view. -/
theorem C10_fine_view_drops_null_keys (records : List Record)
    (sel : Selection) (r : Record) (hr : r ∈ filterStage records sel)
    (hnull : r.app_name = none ∨ r.page_name = none) :
    fineKeyOf r = none ∧
    (∀ k, r ∉ fineGroup (filterStage records sel) k) ∧
    r.viewer_name ∈ viewersOn (filterStage records sel) r.start_date := by
  have hk : fineKeyOf r = none := by
    rcases hnull with h | h
    · simp [fineKeyOf, h]
    · cases hApp : r.app_name <;> simp [fineKeyOf, h, hApp]
  refine ⟨hk, ?_, ?_⟩
  · intro k hkmem
    unfold fineGroup at hkmem
    rw [List.mem_filter] at hkmem
    rw [hk] at hkmem
    exact absurd hkmem.2 (by simp)
  · unfold viewersOn groupOn
    rw [List.mem_toFinset]
    exact List.mem_map.mpr ⟨r, List.mem_filter.mpr ⟨hr, by simp⟩, rfl⟩

/-- Fully tagged record of the C10 dataset. -/
def exC10r1 : Record := mkRec 1 "u1" (some "T1") (some "A1") (some "P1") "q1" 1

/-- Record of the C10 dataset with null app and page tags, same day. -/
def exC10r2 : Record := mkRec 1 "u2" (some "T1") none none "q2" 2

/-- The C10 dataset. -/
def exC10 : List Record := [exC10r1, exC10r2]

/-- The all-pass selection used by the C10 witness. -/
def selC10 : Selection := ⟨0, 9, "All", "All", "All"⟩

/-- C10 witness: on the concrete dataset the null-tagged record is
dropped from every fine group but appears in the coarse view of day 1,
and the coarse and fine viewer sets of day 1 differ. -/
theorem C10_fine_view_drops_null_keys_witness :
    (fineKeyOf exC10r2 = none ∧
     (∀ k, exC10r2 ∉ fineGroup (filterStage exC10 selC10) k) ∧
     exC10r2.viewer_name ∈ viewersOn (filterStage exC10 selC10) exC10r2.start_date) ∧
    "u2" ∈ viewersOn (filterStage exC10 selC10) 1 ∧
    "u2" ∉ fineViewersOn (filterStage exC10 selC10) (1, "A1", "P1") ∧
    viewersOn (filterStage exC10 selC10) 1 ≠
      fineViewersOn (filterStage exC10 selC10) (1, "A1", "P1") := by
  refine ⟨C10_fine_view_drops_null_keys exC10 selC10 exC10r2 (by decide)
    (Or.inl rfl), ?_, ?_, ?_⟩
  · decide
  · decide
  · exact ne_of_mem_of_not_mem' (show "u2" ∈ viewersOn (filterStage exC10 selC10) 1 by decide) (by decide)

/-- The distinct group keys of `groupby("start_date")` are strictly
ascending. -/
theorem ascDates_sorted_lt (rs : List Record) :
    List.Sorted (· < ·) (ascDates rs) := by
  have hs : List.Sorted (fun a b => a ≤ b) (ascDates rs) :=
    List.sorted_insertionSort _ _
  have hn : (ascDates rs).Nodup :=
    ((List.perm_insertionSort _ _).nodup_iff).mpr
      (rs.map (·.start_date)).nodup_dedup
  exact (hs.and hn).imp fun h => lt_of_le_of_ne h.1 h.2

/-- The dates of the coarse viewer table are strictly descending. -/
theorem viewersData_dates_sorted_gt (rs : List Record) :
    List.Sorted (· > ·) ((viewersData rs).map Prod.fst) := by
  unfold viewersData
  rw [List.map_map]
  have hmap : (Prod.fst ∘ fun d =>
      (d, viewersOn rs d, (viewersOn rs d).card)) = id := rfl
  rw [hmap, List.map_id, List.Sorted, List.pairwise_reverse]
  exact ascDates_sorted_lt rs

/-- C8: for a non-empty filtered subset, the coarse viewer table is
ordered by `start_date` descending, every row's Unique-viewers count is
the cardinality of its viewer set, and every viewer of a row is the
`viewer_name` of some filtered record of that row's date. -/
theorem C8_viewer_rows (records : List Record) (sel : Selection)
    (hne : filterStage records sel ≠ []) :
    List.Sorted (· > ·)
      ((viewersData (filterStage records sel)).map Prod.fst) ∧
    ∀ row ∈ viewersData (filterStage records sel),
      row.2.2 = row.2.1.card ∧
      ∀ v ∈ row.2.1, ∃ r ∈ filterStage records sel,
        r.start_date = row.1 ∧ r.viewer_name = v := by
  refine ⟨viewersData_dates_sorted_gt _, ?_⟩
  intro row hrow
  obtain ⟨d, hd, rfl⟩ := List.mem_map.mp hrow
  refine ⟨rfl, ?_⟩
  intro v hv
  rw [show (viewersOn (filterStage records sel) d).card =
    ((d, viewersOn (filterStage records sel) d,
      (viewersOn (filterStage records sel) d).card)).2.1.card from rfl] at hv
  unfold viewersOn at hv
  rw [List.mem_toFinset] at hv
  obtain ⟨r, hrg, hrv⟩ := List.mem_map.mp hv
  unfold groupOn at hrg
  rw [List.mem_filter] at hrg
  exact ⟨r, hrg.1, by simpa using hrg.2, hrv⟩

/-- Two-day dataset for the C8 witness. -/
def exC8 : List Record :=
  [mkRec 1 "u1" (some "T1") (some "A1") (some "P1") "q1" 1,
   mkRec 2 "u2" (some "T1") (some "A1") (some "P1") "q2" 2]

/-- The all-pass selection used by the C8 witness. -/
def selC8 : Selection := ⟨0, 9, "All", "All", "All"⟩

/-- C8 witness: the viewer-table properties instantiated on the concrete
two-day dataset. -/
theorem C8_viewer_rows_witness :
    List.Sorted (· > ·)
      ((viewersData (filterStage exC8 selC8)).map Prod.fst) ∧
    ∀ row ∈ viewersData (filterStage exC8 selC8),
      row.2.2 = row.2.1.card ∧
      ∀ v ∈ row.2.1, ∃ r ∈ filterStage exC8 selC8,
        r.start_date = row.1 ∧ r.viewer_name = v :=
  C8_viewer_rows exC8 selC8 (by decide)

/-- An in-range `getD` is a member of the list. -/
theorem getD_mem_of_lt (s : List ℚ) (j : Nat) (hj : j < s.length) :
    s.getD j 0 ∈ s := by
  rw [List.getD_eq_getElem s 0 hj]
  exact s.get_mem _ _

/-- In an ascending-sorted list the first entry bounds every member from
below. -/
theorem sorted_getD_zero_le (s : List ℚ)
    (hs : List.Sorted (fun a b => a ≤ b) s) (x : ℚ) (hx : x ∈ s) :
    s.getD 0 0 ≤ x := by
  cases s with
  | nil => cases hx
  | cons a t =>
    rcases List.mem_cons.mp hx with rfl | hx
    · exact le_refl _
    · exact List.rel_of_sorted_cons hs x hx

/-- In an ascending-sorted list the last entry bounds every member from
above. -/
theorem sorted_le_getD_last (s : List ℚ)
    (hs : List.Sorted (fun a b => a ≤ b) s) (x : ℚ) (hx : x ∈ s) :
    x ≤ s.getD (s.length - 1) 0 := by
  induction s with
  | nil => cases hx
  | cons a t ih =>
    have hst : List.Sorted (fun a b => a ≤ b) t := (List.sorted_cons.mp hs).2
    rcases List.mem_cons.mp hx with rfl | hx
    · cases t with
      | nil => exact le_refl _
      | cons b u =>
        have hlast : (b :: u).getD ((b :: u).length - 1) 0 ∈ b :: u :=
          getD_mem_of_lt _ _ (by simp)
        have h1 : x ≤ (b :: u).getD ((b :: u).length - 1) 0 :=
          List.rel_of_sorted_cons hs _ hlast
        simpa using h1
    · have h1 := ih hst hx
      cases t with
      | nil => cases hx
      | cons b u => simpa using h1

/-- At fraction 0 the linear-interpolation quantile is the first entry of
the sorted values. -/
theorem quantileLinear_zero (xs : List ℚ) (h : xs ≠ []) :
    quantileLinear xs 0 =
      (List.insertionSort (fun a b => a ≤ b) xs).getD 0 0 := by
  have hlen : (List.insertionSort (fun a b => a ≤ b) xs).length ≠ 0 := by
    rw [List.length_insertionSort]
    simpa using fun hc => h (List.eq_nil_of_length_eq_zero hc)
  simp [quantileLinear, hlen, ratFloor_eq_floor]
  exact fun hc => absurd hc h

/-- At fraction 1 the linear-interpolation quantile is the last entry of
the sorted values. -/
theorem quantileLinear_one (xs : List ℚ) (h : xs ≠ []) :
    quantileLinear xs 1 =
      (List.insertionSort (fun a b => a ≤ b) xs).getD
        ((List.insertionSort (fun a b => a ≤ b) xs).length - 1) 0 := by
  have hlen : (List.insertionSort (fun a b => a ≤ b) xs).length ≠ 0 := by
    rw [List.length_insertionSort]
    simpa using fun hc => h (List.eq_nil_of_length_eq_zero hc)
  have hfloor :
      Rat.floor
          (((List.insertionSort (fun a b => a ≤ b) xs).length : ℚ) - 1) =
        ((List.insertionSort (fun a b => a ≤ b) xs).length : ℤ) - 1 := by
    rw [ratFloor_eq_floor]
    rw [show (((List.insertionSort (fun a b => a ≤ b) xs).length : ℚ) - 1) =
        ((((List.insertionSort (fun a b => a ≤ b) xs).length : ℤ) - 1 : ℤ) : ℚ)
      by push_cast; ring]
    exact Int.floor_intCast _
  simp only [quantileLinear, if_neg hlen, mul_one, hfloor]
  have htn :
      (((List.insertionSort (fun a b => a ≤ b) xs).length : ℤ) - 1).toNat =
        (List.insertionSort (fun a b => a ≤ b) xs).length - 1 := by omega
  rw [htn]
  push_cast
  ring

/-- The fraction-0 quantile is the minimum of the values: a member that
bounds every member from below. -/
theorem quantileLinear_zero_isMin (xs : List ℚ) (h : xs ≠ []) :
    quantileLinear xs 0 ∈ xs ∧ ∀ x ∈ xs, quantileLinear xs 0 ≤ x := by
  rw [quantileLinear_zero xs h]
  have hperm := List.perm_insertionSort (fun a b => a ≤ b) xs
  have hsorted := List.sorted_insertionSort (fun a b => a ≤ b) xs
  have hlen0 : 0 < (List.insertionSort (fun a b => a ≤ b) xs).length := by
    rw [List.length_insertionSort]
    exact List.length_pos.mpr h
  constructor
  · exact hperm.mem_iff.mp (getD_mem_of_lt _ _ hlen0)
  · intro x hx
    exact sorted_getD_zero_le _ hsorted x (hperm.mem_iff.mpr hx)

/-- The fraction-1 quantile is the maximum of the values: a member that
bounds every member from above. -/
theorem quantileLinear_one_isMax (xs : List ℚ) (h : xs ≠ []) :
    quantileLinear xs 1 ∈ xs ∧ ∀ x ∈ xs, x ≤ quantileLinear xs 1 := by
  rw [quantileLinear_one xs h]
  have hperm := List.perm_insertionSort (fun a b => a ≤ b) xs
  have hsorted := List.sorted_insertionSort (fun a b => a ≤ b) xs
  have hlen0 : 0 < (List.insertionSort (fun a b => a ≤ b) xs).length := by
    rw [List.length_insertionSort]
    exact List.length_pos.mpr h
  constructor
  · exact hperm.mem_iff.mp (getD_mem_of_lt _ _ (by omega))
  · intro x hx
    exact sorted_le_getD_last _ hsorted x (hperm.mem_iff.mpr hx)

/-- Every date produced by `ascDates` has a non-empty group of duration
values. -/
theorem groupTimes_ne_nil (rs : List Record) (d : Nat)
    (hd : d ∈ ascDates rs) : groupTimes rs d ≠ [] := by
  unfold ascDates at hd
  rw [(List.perm_insertionSort _ _).mem_iff, List.mem_dedup,
    List.mem_map] at hd
  obtain ⟨r, hr, hrd⟩ := hd
  have hmem : r.query_time_sec ∈ groupTimes rs d := by
    unfold groupTimes groupOn
    exact List.mem_map_of_mem _ (List.mem_filter.mpr ⟨hr, by simp [hrd]⟩)
  exact List.ne_nil_of_mem hmem

/-- The day-1 group of the C1 dataset: `query_time_sec` values 1..5. -/
def exC1day1 : List Record :=
  [mkRec 1 "u1" (some "T1") (some "A1") (some "P1") "q1" 1,
   mkRec 1 "u2" (some "T1") (some "A1") (some "P1") "q2" 2,
   mkRec 1 "u3" (some "T1") (some "A1") (some "P1") "q3" 3,
   mkRec 1 "u4" (some "T1") (some "A1") (some "P1") "q4" 4,
   mkRec 1 "u5" (some "T1") (some "A1") (some "P1") "q5" 5]

/-- The C1 dataset: records on days 1..3, day 1 carrying values 1..5. -/
def exC1 : List Record :=
  exC1day1 ++
    [mkRec 2 "u6" (some "T1") (some "A1") (some "P1") "q6" 6,
     mkRec 3 "u7" (some "T1") (some "A1") (some "P1") "q7" 7]

/-- The selection narrowing the C1 dataset to day 1. -/
def selC1 : Selection := ⟨1, 1, "All", "All", "All"⟩

/-- C1: on every non-empty filtered subset the performance aggregation
produces one row per distinct `start_date` (dates ascending), each row
being the six linear-interpolation quantiles of the group's
`query_time_sec` values at fractions 0, 0.25, 0.5, 0.9, 0.95, 1, with
the fraction-0 and fraction-1 entries being the group minimum and
maximum; and on the concrete single-day group with values [1,2,3,4,5]
the row is min=1, p25=2, median=3, p90=4.6, p95=4.8, max=5. -/
theorem C1_daily_quantile_statistics :
    (∀ records sel, filterStage records sel ≠ [] →
      ((quartiles (filterStage records sel)).map Prod.fst =
          ascDates (filterStage records sel)) ∧
      ∀ row ∈ quartiles (filterStage records sel),
        row = quartileRow (filterStage records sel) row.1 ∧
        (row.2.1 ∈ groupTimes (filterStage records sel) row.1 ∧
          ∀ x ∈ groupTimes (filterStage records sel) row.1, row.2.1 ≤ x) ∧
        (row.2.2.2.2.2.2 ∈ groupTimes (filterStage records sel) row.1 ∧
          ∀ x ∈ groupTimes (filterStage records sel) row.1,
            x ≤ row.2.2.2.2.2.2)) ∧
    quartiles (filterStage exC1 selC1) = [(1, 1, 2, 3, 23/5, 24/5, 5)] := by
  constructor
  · intro records sel hne
    constructor
    · unfold quartiles
      rw [List.map_map]
      rw [show (Prod.fst ∘ quartileRow (filterStage records sel)) = id
        from funext fun d => rfl]
      exact List.map_id _
    · intro row hrow
      obtain ⟨d, hd, rfl⟩ := List.mem_map.mp hrow
      have hgn : groupTimes (filterStage records sel) d ≠ [] :=
        groupTimes_ne_nil _ d hd
      exact ⟨rfl, quantileLinear_zero_isMin _ hgn,
        quantileLinear_one_isMax _ hgn⟩
  · have hfs : filterStage exC1 selC1 = exC1day1 := by decide
    have hdates : ascDates exC1day1 = [1] := by decide
    have htimes : groupTimes exC1day1 1 = [1, 2, 3, 4, 5] := by decide
    have h00 : quantileLinear [1, 2, 3, 4, 5] 0 = 1 := by
      norm_num [quantileLinear, ratFloor_eq_floor, List.insertionSort,
        List.orderedInsert]
    have h25 : quantileLinear [1, 2, 3, 4, 5] (1/4) = 2 := by
      norm_num [quantileLinear, ratFloor_eq_floor, List.insertionSort,
        List.orderedInsert]
    have h50 : quantileLinear [1, 2, 3, 4, 5] (1/2) = 3 := by
      norm_num [quantileLinear, ratFloor_eq_floor, List.insertionSort,
        List.orderedInsert]
      norm_num [show Int.toNat 2 = 2 from rfl]
    have h90 : quantileLinear [1, 2, 3, 4, 5] (9/10) = 23/5 := by
      norm_num [quantileLinear, ratFloor_eq_floor, List.insertionSort,
        List.orderedInsert]
      norm_num [show Int.toNat 3 = 3 from rfl]
    have h95 : quantileLinear [1, 2, 3, 4, 5] (19/20) = 24/5 := by
      norm_num [quantileLinear, ratFloor_eq_floor, List.insertionSort,
        List.orderedInsert]
      norm_num [show Int.toNat 3 = 3 from rfl]
    have h99 : quantileLinear [1, 2, 3, 4, 5] 1 = 5 := by
      norm_num [quantileLinear, ratFloor_eq_floor, List.insertionSort,
        List.orderedInsert]
      norm_num [show Int.toNat 4 = 4 from rfl]
    rw [hfs]
    unfold quartiles
    rw [hdates]
    simp only [List.map_cons, List.map_nil]
    unfold quartileRow
    rw [htimes, h00, h25, h50, h90, h95, h99]

/-- C1 witness: the per-row quantile characterisation instantiated on the
concrete dataset filtered to day 1. -/
theorem C1_daily_quantile_statistics_witness :
    ((quartiles (filterStage exC1 selC1)).map Prod.fst =
        ascDates (filterStage exC1 selC1)) ∧
    ∀ row ∈ quartiles (filterStage exC1 selC1),
      row = quartileRow (filterStage exC1 selC1) row.1 ∧
      (row.2.1 ∈ groupTimes (filterStage exC1 selC1) row.1 ∧
        ∀ x ∈ groupTimes (filterStage exC1 selC1) row.1, row.2.1 ≤ x) ∧
      (row.2.2.2.2.2.2 ∈ groupTimes (filterStage exC1 selC1) row.1 ∧
        ∀ x ∈ groupTimes (filterStage exC1 selC1) row.1,
          x ≤ row.2.2.2.2.2.2) :=
  C1_daily_quantile_statistics.1 exC1 selC1 (by decide)

/-- The longest-queries table has `min 100 n` rows. -/
theorem longestQueries_length (rs : List Record) :
    (longestQueries rs).length = min 100 rs.length := by
  unfold longestQueries sortDescByTime
  rw [List.length_map, List.length_take, List.length_reverse,
    List.length_insertionSort]

/-- The longest-queries table is sorted by `query_time_sec` descending. -/
theorem longestQueries_sorted (rs : List Record) :
    List.Pairwise (fun a b => b.query_time_sec ≤ a.query_time_sec)
      (longestQueries rs) := by
  unfold longestQueries sortDescByTime
  rw [List.pairwise_map]
  have hs : List.Pairwise byTime (List.insertionSort byTime rs) :=
    List.sorted_insertionSort byTime rs
  have hrev : List.Pairwise (fun a b => byTime b a)
      (List.insertionSort byTime rs).reverse :=
    List.pairwise_reverse.mpr hs
  exact (hrev.sublist (List.take_sublist _ _)).imp fun h => h

/-- Every row of the longest-queries table is the projection of a record
of the input subset. -/
theorem longestQueries_mem (rs : List Record) (row : TopRow)
    (hrow : row ∈ longestQueries rs) :
    ∃ r ∈ rs, projectTop r = row := by
  unfold longestQueries sortDescByTime at hrow
  obtain ⟨r, hr, rfl⟩ := List.mem_map.mp hrow
  refine ⟨r, ?_, rfl⟩
  have h1 : r ∈ (List.insertionSort byTime rs).reverse :=
    List.take_subset _ _ hr
  rw [List.mem_reverse] at h1
  exact (List.perm_insertionSort byTime rs).mem_iff.mp h1

/-- C2 (amended): the longest-queries table is sorted by `query_time_sec`
descending, has `min 100 n` rows, each row the projection of a filtered
record to the six displayed columns (the fresh zero-based row index being
the list position); the order of rows with equal `query_time_sec` is not
the original one (see the counterexample). -/
theorem C2_longest_queries (records : List Record) (sel : Selection) :
    (longestQueries (filterStage records sel)).length =
      min 100 (filterStage records sel).length ∧
    List.Pairwise (fun a b => b.query_time_sec ≤ a.query_time_sec)
      (longestQueries (filterStage records sel)) ∧
    ∀ row ∈ longestQueries (filterStage records sel),
      ∃ r ∈ filterStage records sel, projectTop r = row :=
  ⟨longestQueries_length _, longestQueries_sorted _,
    fun row hrow => longestQueries_mem _ row hrow⟩

/-- First record of the C2 dataset; its duration ties with the second. -/
def exC2r1 : Record := mkRec 1 "u1" (some "T1") (some "A1") (some "P1") "first" 5

/-- Second record of the C2 dataset, equal duration, later in the table. -/
def exC2r2 : Record := mkRec 1 "u2" (some "T1") (some "A1") (some "P1") "second" 5

/-- The C2 dataset. -/
def exC2 : List Record := [exC2r1, exC2r2]

/-- The all-pass selection used by the C2 counterexample. -/
def selC2 : Selection := ⟨0, 9, "All", "All", "All"⟩

/-- C2 counterexample: two rows with equal `query_time_sec` come out in
REVERSED original order — the descending sort reverses a stable ascending
sort, so ties do not retain their original relative order. -/
theorem C2_counterexample :
    filterStage exC2 selC2 = [exC2r1, exC2r2] ∧
    longestQueries (filterStage exC2 selC2) =
      [projectTop exC2r2, projectTop exC2r1] ∧
    projectTop exC2r1 ≠ projectTop exC2r2 := by
  refine ⟨by decide, by decide, by decide⟩
